import Mathlib

/-!
Shallow embedding of the sniper-bot trading program (src/bot.py) and proofs
about its indicator engine (`QuantEngine.analyze`) and per-instrument
breakout lifecycle (the strategy portion of `main_loop`).

Floating-point values are modelled by `PFloat`: either NaN, plus or minus
infinity, or an exact rational. Arithmetic follows IEEE-754 / numpy
behaviour on these cases (NaN propagates, `x / 0` gives a signed infinity,
`0 / 0` gives NaN, comparisons with NaN are false). The one deliberate
approximation: the square root of a finite nonnegative rational is taken
with `Rat.sqrt` (exact on perfect squares); no theorem below depends on the
numeric value of a square root of a non-perfect square.
-/

namespace SniperBot

set_option maxRecDepth 100000

/-- A Python/numpy floating-point value: NaN, an infinity, or a finite
value modelled as an exact rational. -/
inductive PFloat where
  | nan : PFloat
  | inf : PFloat
  | ninf : PFloat
  | val : ℚ → PFloat
deriving DecidableEq, Repr

namespace PFloat

/-- IEEE addition: NaN propagates, `inf + ninf = NaN`. -/
def add : PFloat → PFloat → PFloat
  | nan, _ => nan
  | _, nan => nan
  | inf, ninf => nan
  | ninf, inf => nan
  | inf, _ => inf
  | _, inf => inf
  | ninf, _ => ninf
  | _, ninf => ninf
  | val a, val b => val (a + b)

/-- IEEE negation. -/
def neg : PFloat → PFloat
  | nan => nan
  | inf => ninf
  | ninf => inf
  | val a => val (-a)

/-- IEEE subtraction, via `add` and `neg` (so `inf - inf = NaN`). -/
def sub (a b : PFloat) : PFloat := add a (neg b)

/-- IEEE multiplication: NaN propagates, `inf * 0 = NaN`, signs multiply. -/
def mul : PFloat → PFloat → PFloat
  | nan, _ => nan
  | _, nan => nan
  | inf, inf => inf
  | inf, ninf => ninf
  | ninf, inf => ninf
  | ninf, ninf => inf
  | inf, val b => if 0 < b then inf else if b < 0 then ninf else nan
  | val a, inf => if 0 < a then inf else if a < 0 then ninf else nan
  | ninf, val b => if 0 < b then ninf else if b < 0 then inf else nan
  | val a, ninf => if 0 < a then ninf else if a < 0 then inf else nan
  | val a, val b => val (a * b)

/-- numpy division: NaN propagates, `inf / inf = NaN`, `x / 0` is a signed
infinity for `x ≠ 0`, `0 / 0 = NaN`, finite over infinite is `0`. -/
def div : PFloat → PFloat → PFloat
  | nan, _ => nan
  | _, nan => nan
  | inf, inf => nan
  | inf, ninf => nan
  | ninf, inf => nan
  | ninf, ninf => nan
  | inf, val b => if 0 ≤ b then inf else ninf
  | ninf, val b => if 0 ≤ b then ninf else inf
  | val _, inf => val 0
  | val _, ninf => val 0
  | val a, val b =>
    if b = 0 then (if a = 0 then nan else if 0 < a then inf else ninf)
    else val (a / b)

/-- IEEE absolute value. -/
def abs : PFloat → PFloat
  | nan => nan
  | inf => inf
  | ninf => inf
  | val a => val |a|

/-- IEEE strict less-than: any comparison with NaN is false. -/
def lt : PFloat → PFloat → Bool
  | nan, _ => false
  | _, nan => false
  | ninf, ninf => false
  | ninf, _ => true
  | _, ninf => false
  | inf, _ => false
  | _, inf => true
  | val a, val b => a < b

/-- IEEE equality test (`==`): false on NaN, true on equal infinities. -/
def eqv : PFloat → PFloat → Bool
  | nan, _ => false
  | _, nan => false
  | inf, inf => true
  | ninf, ninf => true
  | val a, val b => a = b
  | _, _ => false

/-- IEEE `<=`. -/
def le (a b : PFloat) : Bool := lt a b || eqv a b

/-- IEEE `>`. -/
def gt (a b : PFloat) : Bool := lt b a

/-- IEEE `>=`. -/
def ge (a b : PFloat) : Bool := le b a

/-- The Python test `x != 0`: true for NaN and for the infinities. -/
def ne0 : PFloat → Bool
  | nan => true
  | inf => true
  | ninf => true
  | val a => a ≠ 0

/-- NaN test (`pandas.isna`). -/
def isNan : PFloat → Bool
  | nan => true
  | _ => false

/-- numpy square root: NaN for NaN and for negative inputs, `inf` for
`inf`; on finite nonnegative rationals approximated by `Rat.sqrt`
(exact on perfect squares). -/
def sqrt : PFloat → PFloat
  | nan => nan
  | inf => inf
  | ninf => nan
  | val a => if a < 0 then nan else val (Rat.sqrt a)

end PFloat

/-! ## Series operations (pandas semantics on `List PFloat`) -/

/-- `Series.diff`: first entry NaN, then pairwise differences. -/
def sdiff (s : List PFloat) : List PFloat :=
  (List.range s.length).map fun i =>
    if i = 0 then PFloat.nan
    else PFloat.sub (s.getD i PFloat.nan) (s.getD (i - 1) PFloat.nan)

/-- Elementwise absolute value (`Series.abs`). -/
def sabs (s : List PFloat) : List PFloat := s.map PFloat.abs

/-- `Series.pct_change`: first entry NaN, then relative one-step changes. -/
def pct_change (s : List PFloat) : List PFloat :=
  (List.range s.length).map fun i =>
    if i = 0 then PFloat.nan
    else
      PFloat.div (PFloat.sub (s.getD i PFloat.nan) (s.getD (i - 1) PFloat.nan))
        (s.getD (i - 1) PFloat.nan)

/-- `Series.dropna`: remove the NaN entries. -/
def dropna (s : List PFloat) : List PFloat := s.filter (fun x => !x.isNan)

/-- The trailing window of width `w` ending at index `i`. -/
def windowAt (w i : Nat) (s : List PFloat) : List PFloat :=
  (s.take (i + 1)).drop (i + 1 - w)

/-- `Series.rolling(w)` followed by an aggregation `f`. With the pandas
default `min_periods = w`, the entry at index `i` is NaN unless the window
holds `w` observations none of which is NaN. -/
def rollingApply (w : Nat) (f : List PFloat → PFloat) (s : List PFloat) : List PFloat :=
  (List.range s.length).map fun i =>
    if i + 1 < w then PFloat.nan
    else
      let win := windowAt w i s
      if win.any PFloat.isNan then PFloat.nan else f win

/-- Sum of a window. -/
def winSum (l : List PFloat) : PFloat := l.foldl PFloat.add (PFloat.val 0)

/-- Mean of a window of width `w`. -/
def winMean (w : Nat) (l : List PFloat) : PFloat :=
  PFloat.div (winSum l) (PFloat.val w)

/-- Sample standard deviation (pandas `ddof = 1`) of a window of width `w`. -/
def winStd (w : Nat) (l : List PFloat) : PFloat :=
  let m := winMean w l
  PFloat.sqrt
    (PFloat.div (winSum (l.map fun x => PFloat.mul (PFloat.sub x m) (PFloat.sub x m)))
      (PFloat.val (w - 1)))

/-- `Series.rolling(w).mean()`. -/
def rollingMean (w : Nat) (s : List PFloat) : List PFloat :=
  rollingApply w (winMean w) s

/-- `Series.rolling(w).sum()`. -/
def rollingSum (w : Nat) (s : List PFloat) : List PFloat :=
  rollingApply w winSum s

/-- `Series.rolling(w).std()`. -/
def rollingStd (w : Nat) (s : List PFloat) : List PFloat :=
  rollingApply w (winStd w) s

/-- `Series.iloc[-1]`: the last entry, or an IndexError on an empty series. -/
def ilocLast (s : List PFloat) : Except String PFloat :=
  if s.length = 0 then Except.error "IndexError"
  else Except.ok (s.getD (s.length - 1) PFloat.nan)

/-- `Series.iloc[-n]` for `n ≥ 1`: IndexError when the series is shorter
than `n`. -/
def ilocNeg (n : Nat) (s : List PFloat) : Except String PFloat :=
  if n ≤ s.length then Except.ok (s.getD (s.length - n) PFloat.nan)
  else Except.error "IndexError"

/-! ## Configuration constants (src/bot.py lines 10-24) -/

def RISK_STAKE : ℚ := 10
def LEVERAGE : ℚ := 100
def Z_TRIGGER : ℚ := -2
def ER_FILTER : ℚ := 0.4
def RSI_BUY_MIN : ℚ := 55
def RSI_SELL_MAX : ℚ := 45
def SL_ATR_MULT : ℚ := 3
def TP_ATR_MULT : ℚ := 9

/-! ## QuantEngine (src/bot.py lines 51-81) -/

/-- The tuple returned by `QuantEngine.analyze`: z-score, efficiency
ratio, ATR, RSI and last price. -/
structure Snapshot where
  z : PFloat
  er : PFloat
  atr : PFloat
  rsi : PFloat
  price : PFloat
deriving DecidableEq, Repr

/-- `delta.where(delta > 0, 0)`: keep positive entries, all else
(including NaN, which compares false) becomes 0. -/
def posPart (d : PFloat) : PFloat :=
  if PFloat.gt d (PFloat.val 0) then d else PFloat.val 0

/-- `-delta.where(delta < 0, 0)`: the negated negative entries, all else 0. -/
def negPart (d : PFloat) : PFloat :=
  PFloat.neg (if PFloat.lt d (PFloat.val 0) then d else PFloat.val 0)

/-- The RSI series of line 65: `100 - (100 / (1 + rs))`, elementwise over
`rs = gain / loss` (lines 62-64). -/
def rsiSeries (close : List PFloat) : List PFloat :=
  let delta := sdiff close
  let gain := rollingMean 14 (delta.map posPart)
  let loss := rollingMean 14 (delta.map negPart)
  (List.zipWith PFloat.div gain loss).map fun r =>
    PFloat.sub (PFloat.val 100) (PFloat.div (PFloat.val 100) (PFloat.add (PFloat.val 1) r))

/-- `rets.rolling(20).std()` where `rets = close.pct_change().dropna()`
(lines 69-70). -/
def rolStd (close : List PFloat) : List PFloat :=
  rollingStd 20 (dropna (pct_change close))

/-- `QuantEngine.analyze` (lines 55-81). Each `.iloc` access can raise
IndexError; the accesses appear in source order. The `z` guard is the
Python conditional expression of line 73 (`std_vol != 0`, which is true
for NaN), and the `er` guard is the `path > 0` of line 79. -/
def analyze (closes : List ℚ) : Except String Snapshot := do
  let close := closes.map PFloat.val
  let atr ← ilocLast (rollingMean 14 (sabs (sdiff close)))
  let rsi ← ilocLast (rsiSeries close)
  let mean_vol ← ilocLast (rollingMean 100 (rolStd close))
  let std_vol ← ilocLast (rollingStd 100 (rolStd close))
  let lastVol ← ilocLast (rolStd close)
  let pLast ← ilocLast close
  let pM10 ← ilocNeg 10 close
  let path ← ilocLast (rollingSum 10 (sabs (sdiff close)))
  let z := if std_vol.ne0 then PFloat.div (PFloat.sub lastVol mean_vol) std_vol
           else PFloat.val 0
  let net := PFloat.abs (PFloat.sub pLast pM10)
  let er := if PFloat.gt path (PFloat.val 0) then PFloat.div net path else PFloat.val 0
  pure { z := z, er := er, atr := atr, rsi := rsi, price := pLast }

/-! ## Lifecycle controller (src/bot.py lines 84-123 and 158-202) -/

/-- Order direction. -/
inductive Direction where
  | BUY : Direction
  | SELL : Direction
deriving DecidableEq, Repr

/-- The ghost order dictionary of line 164: pending breakout levels, the
ATR at arming, and the arming timestamp. -/
structure GhostOrder where
  buy_lvl : PFloat
  sell_lvl : PFloat
  atr : PFloat
  created : ℚ
deriving DecidableEq, Repr

/-- Floor of a rational, computed by Euclidean division (the denominator
is positive, so this is the mathematical floor). -/
def qfloor (x : ℚ) : ℤ := Int.ediv x.num x.den

/-- Python round-half-to-even on an exact rational. -/
def roundHalfEven (x : ℚ) : ℤ :=
  if x - qfloor x < 1/2 then qfloor x
  else if 1/2 < x - qfloor x then qfloor x + 1
  else if qfloor x % 2 = 0 then qfloor x else qfloor x + 1

/-- Python `round(x, 2)`. -/
def round2 (q : ℚ) : ℚ := (roundHalfEven (q * 100) : ℚ) / 100

/-- The order placed at the venue by `execute_trade`: contract type,
stake, leverage multiplier, and the take-profit limit amount in account
currency (line 110, `round(tp_amount, 2)`). The stop loss is auto-set to
the stake by the venue; `execute_trade` computes no price levels. -/
structure VenueOrder where
  contract_type : String
  amount : ℚ
  multiplier : ℚ
  take_profit : ℚ
deriving DecidableEq, Repr

/-- `execute_trade` (lines 84-123). The venue interaction is external;
`venueOk` abstracts whether its awaited calls succeed. Every exception is
caught (lines 120-123), so the function always returns a boolean: `true`
with the placed order on success, `false` with no order on failure. -/
def execute_trade (venueOk : Bool) (direction : Direction) (tp_amount : ℚ) :
    Option VenueOrder × Bool :=
  if venueOk then
    (some { contract_type := if direction = Direction.BUY then "MULTUP" else "MULTDOWN"
          , amount := RISK_STAKE
          , multiplier := LEVERAGE
          , take_profit := round2 tp_amount }, true)
  else (none, false)

/-- The squeeze test of line 162: `z < Z_TRIGGER and er > ER_FILTER`. -/
def squeezeCond (z er : PFloat) : Bool :=
  PFloat.lt z (PFloat.val Z_TRIGGER) && PFloat.gt er (PFloat.val ER_FILTER)

/-- The observable outcome of one pass of the strategy logic: the new
ghost-order state, the `execute_trade` call it made (direction and the
`reward` argument of lines 189/198), the venue order that call placed,
and the boolean that call returned (which `main_loop` ignores). -/
structure StepResult where
  ghost_order : Option GhostOrder
  trade : Option (Direction × ℚ)
  venue_order : Option VenueOrder
  exec_ok : Option Bool
deriving DecidableEq, Repr

/-- One pass of the strategy logic of `main_loop` (lines 158-202), for a
fresh snapshot at wall-clock time `now`. Phase 1 (lines 161-172) arms a
ghost order on a squeeze when none exists; Phase 2 (lines 175-202) first
expires a stale order (line 179, with `continue`), then checks the BUY
breakout before the SELL breakout, executing only when RSI confirms and
clearing the ghost order afterwards without looking at the result of
`execute_trade`. -/
def strategyStep (venueOk : Bool) (ghost : Option GhostOrder) (s : Snapshot)
    (now : ℚ) : StepResult :=
  match ghost with
  | none =>
    if squeezeCond s.z s.er then
      { ghost_order := some
          { buy_lvl := PFloat.add s.price (PFloat.mul s.atr (PFloat.val 0.5))
          , sell_lvl := PFloat.sub s.price (PFloat.mul s.atr (PFloat.val 0.5))
          , atr := s.atr
          , created := now }
      , trade := none, venue_order := none, exec_ok := none }
    else
      { ghost_order := none, trade := none, venue_order := none, exec_ok := none }
  | some order =>
    if now - order.created > 900 then
      { ghost_order := none, trade := none, venue_order := none, exec_ok := none }
    else if PFloat.ge s.price order.buy_lvl then
      if PFloat.gt s.rsi (PFloat.val RSI_BUY_MIN) then
        let reward := RISK_STAKE * (TP_ATR_MULT / SL_ATR_MULT)
        let res := execute_trade venueOk Direction.BUY reward
        { ghost_order := none, trade := some (Direction.BUY, reward)
        , venue_order := res.1, exec_ok := some res.2 }
      else
        { ghost_order := some order, trade := none, venue_order := none, exec_ok := none }
    else if PFloat.le s.price order.sell_lvl then
      if PFloat.lt s.rsi (PFloat.val RSI_SELL_MAX) then
        let reward := RISK_STAKE * (TP_ATR_MULT / SL_ATR_MULT)
        let res := execute_trade venueOk Direction.SELL reward
        { ghost_order := none, trade := some (Direction.SELL, reward)
        , venue_order := res.1, exec_ok := some res.2 }
      else
        { ghost_order := some order, trade := none, venue_order := none, exec_ok := none }
    else
      { ghost_order := some order, trade := none, venue_order := none, exec_ok := none }

/-! ## Definitions written from the words of the spec, for comparison -/

/-- Follows the words of the spec for claim C1 (refinement target, not
code): exit price levels derived from the entry price and the ATR at
arming, `stopLoss = entry ∓ slMult*atr` and `takeProfit = entry ± tpMult*atr`
with the sign by direction. -/
def specExitLevels (d : Direction) (entry atr : ℚ) : ℚ × ℚ :=
  match d with
  | Direction.BUY => (entry - SL_ATR_MULT * atr, entry + TP_ATR_MULT * atr)
  | Direction.SELL => (entry + SL_ATR_MULT * atr, entry - TP_ATR_MULT * atr)

/-- Follows the words of the spec for claim C9 (comparison target, not
code): efficiency ratio with numerator and denominator over the same
trailing `N = 10` bars, the numerator being the net displacement across
the ten most recent one-bar changes and the denominator their absolute
sum; 0 when the denominator is 0 or the series is shorter than `N`. -/
def erSpec (closes : List ℚ) : ℚ :=
  let n := closes.length
  if n < 10 then 0
  else
    let net := |closes.getD (n - 1) 0 - closes.getD (n - 11) 0|
    let path := ((List.range 10).map fun i =>
      |closes.getD (n - 10 + i) 0 - closes.getD (n - 10 + i - 1) 0|).sum
    if path = 0 then 0 else net / path

/-- The efficiency ratio the code actually computes (amended claim C9),
written independently of the series machinery: the numerator is the net
displacement from `iloc[-10]` to `iloc[-1]` (nine one-bar changes) while
the denominator sums the ten most recent absolute one-bar changes, so the
denominator spans one more bar than the numerator; 0 unless the
denominator is positive. Stated for series of length at least 11. -/
def erAmended (closes : List ℚ) : PFloat :=
  let n := closes.length
  let net := |closes.getD (n - 1) 0 - closes.getD (n - 10) 0|
  let path := ((List.range 10).map fun i =>
    |closes.getD (n - 10 + i) 0 - closes.getD (n - 10 + i - 1) 0|).sum
  if 0 < path then PFloat.val (net / path) else PFloat.val 0

/-! ## Helper lemmas -/

theorem pf_mul_comm (a b : PFloat) : a.mul b = b.mul a := by
  cases a <;> cases b <;> simp [PFloat.mul, mul_comm]

theorem pf_sub_nan (a : PFloat) : a.sub PFloat.nan = PFloat.nan := by
  cases a <;> rfl

theorem pf_div_nan (a : PFloat) : a.div PFloat.nan = PFloat.nan := by
  cases a <;> rfl

theorem ebind_ok {α β : Type} (a : α) (f : α → Except String β) :
    (Except.ok a >>= f) = f a := rfl

theorem ebind_err {α β : Type} (e : String) (f : α → Except String β) :
    ((Except.error e : Except String α) >>= f) = Except.error e := rfl

theorem length_sdiff (s : List PFloat) : (sdiff s).length = s.length := by
  simp [sdiff]

theorem length_sabs (s : List PFloat) : (sabs s).length = s.length := by
  simp [sabs]

theorem length_pct_change (s : List PFloat) : (pct_change s).length = s.length := by
  simp [pct_change]

theorem length_rollingApply (w : Nat) (f : List PFloat → PFloat) (s : List PFloat) :
    (rollingApply w f s).length = s.length := by
  simp [rollingApply]

theorem length_rollingMean (w : Nat) (s : List PFloat) :
    (rollingMean w s).length = s.length := by
  rw [rollingMean, length_rollingApply]

theorem length_rollingStd (w : Nat) (s : List PFloat) :
    (rollingStd w s).length = s.length := by
  rw [rollingStd, length_rollingApply]

theorem length_rollingSum (w : Nat) (s : List PFloat) :
    (rollingSum w s).length = s.length := by
  rw [rollingSum, length_rollingApply]

theorem length_rsiSeries (s : List PFloat) : (rsiSeries s).length = s.length := by
  simp [rsiSeries, length_rollingMean, length_sdiff, inf_idem]

theorem ilocLast_ok {s : List PFloat} (h : s.length ≠ 0) :
    ilocLast s = Except.ok (s.getD (s.length - 1) PFloat.nan) := by
  simp [ilocLast, h]

theorem ilocLast_nil : ilocLast [] = Except.error "IndexError" := rfl

theorem getElem?_rollingApply (w : Nat) (f : List PFloat → PFloat) (s : List PFloat)
    (j : Nat) (hj : j < s.length) :
    (rollingApply w f s)[j]? =
      some (if j + 1 < w then PFloat.nan
            else if (windowAt w j s).any PFloat.isNan then PFloat.nan
            else f (windowAt w j s)) := by
  simp [rollingApply, List.getElem?_map, List.getElem?_range, hj]

theorem getD_rollingApply_short (w : Nat) (f : List PFloat → PFloat) (s : List PFloat)
    (j : Nat) (hj : j < s.length) (hw : j + 1 < w) :
    (rollingApply w f s).getD j PFloat.nan = PFloat.nan := by
  rw [List.getD_eq_getElem?_getD, getElem?_rollingApply w f s j hj, if_pos hw]
  rfl

theorem length_dropna_pct (s : List PFloat) (h : 0 < s.length) :
    (dropna (pct_change s)).length ≤ s.length - 1 := by
  obtain ⟨m, hm⟩ : ∃ m, s.length = m + 1 := ⟨s.length - 1, by omega⟩
  have hrange : List.range s.length = 0 :: (List.range m).map Nat.succ := by
    rw [hm, List.range_succ_eq_map]
  have hsplit : pct_change s = PFloat.nan :: ((List.range m).map Nat.succ).map
      (fun i => if i = 0 then PFloat.nan
        else PFloat.div (PFloat.sub (s.getD i PFloat.nan) (s.getD (i - 1) PFloat.nan))
          (s.getD (i - 1) PFloat.nan)) := by
    rw [pct_change, hrange]
    simp
  rw [hsplit]
  have hcons : ∀ t : List PFloat, dropna (PFloat.nan :: t) = dropna t := by
    intro t
    simp [dropna, List.filter_cons, PFloat.isNan]
  rw [hcons]
  calc (dropna (((List.range m).map Nat.succ).map _)).length
      ≤ (((List.range m).map Nat.succ).map _).length := List.length_filter_le _ _
    _ = m := by simp
    _ ≤ s.length - 1 := by omega

/-! ## Claim C3 -/

/-- Counterexample to C3 as stated: a three-bar series makes
`QuantEngine.analyze` raise an IndexError (at `price.iloc[-10]` of the
efficiency-ratio computation) rather than return zero indicators. -/
theorem c3_counterexample :
    analyze [1, 2, 3] = Except.error "IndexError" := by
  with_unfolding_all rfl

/-- C3 as amended: every series shorter than 10 bars makes
`QuantEngine.analyze` raise an IndexError (for length at least 2 at the
`iloc[-10]` of the efficiency ratio, for shorter input at an `iloc[-1]`
on an empty rolling series), so short series produce an exception, not
zero indicator values. -/
theorem c3_short_series_index_error (closes : List ℚ) (h : closes.length < 10) :
    analyze closes = Except.error "IndexError" := by
  rcases Nat.eq_zero_or_pos closes.length with h0 | h0
  · have hnil : closes = [] := List.length_eq_zero.mp h0
    subst hnil
    with_unfolding_all rfl
  · have hc : (closes.map PFloat.val).length = closes.length := by simp
    have h1 := ilocLast_ok
      (s := rollingMean 14 (sabs (sdiff (closes.map PFloat.val))))
      (by rw [rollingMean, length_rollingApply, length_sabs, length_sdiff, hc]; omega)
    have h2 := ilocLast_ok (s := rsiSeries (closes.map PFloat.val))
      (by rw [length_rsiSeries, hc]; omega)
    rcases Nat.eq_zero_or_pos (rolStd (closes.map PFloat.val)).length with hr | hr
    · have hnil3 : rollingMean 100 (rolStd (closes.map PFloat.val)) = [] :=
        List.length_eq_zero.mp (by rw [rollingMean, length_rollingApply]; exact hr)
      simp only [analyze, h1, h2, hnil3, ilocLast_nil, ebind_ok, ebind_err]
    · have h3 := ilocLast_ok (s := rollingMean 100 (rolStd (closes.map PFloat.val)))
        (by rw [rollingMean, length_rollingApply]; omega)
      have h4 := ilocLast_ok (s := rollingStd 100 (rolStd (closes.map PFloat.val)))
        (by rw [rollingStd, length_rollingApply]; omega)
      have h5 := ilocLast_ok (s := rolStd (closes.map PFloat.val)) (by omega)
      have h6 := ilocLast_ok (s := closes.map PFloat.val) (by omega)
      have h7 : ilocNeg 10 (closes.map PFloat.val) = Except.error "IndexError" := by
        rw [ilocNeg, if_neg]
        rw [hc]
        omega
      simp only [analyze, h1, h2, h3, h4, h5, h6, h7, ebind_ok, ebind_err]

/-- Witness for C3 (amended) at a concrete 2-bar series. -/
theorem c3_short_series_index_error_witness :
    analyze [5, 6] = Except.error "IndexError" :=
  c3_short_series_index_error [5, 6] (by norm_num)

/-! ## Claim C8 -/

theorem epure {α : Type} (a : α) : (pure a : Except String α) = Except.ok a := rfl

theorem rolling20_nan_at (u : List PFloat) (k : Nat) (hk : k < u.length)
    (hk19 : k + 1 < 20) : (rollingStd 20 u)[k]? = some PFloat.nan := by
  rw [rollingStd, getElem?_rollingApply 20 _ u k hk, if_pos hk19]

/-- The `rol_std.rolling(100).std().iloc[-1]` of line 72 is NaN whenever
the returns series has between 1 and 118 entries: either the outer
100-window does not fill, or it reaches into the NaN head of the inner
20-window series. -/
theorem stdvol_nan (u : List PFloat) (h0 : 0 < u.length) (h118 : u.length ≤ 118) :
    ilocLast (rollingStd 100 (rollingStd 20 u)) = Except.ok PFloat.nan := by
  have hlt : (rollingStd 20 u).length = u.length := length_rollingStd 20 u
  rw [ilocLast_ok (by rw [length_rollingStd, hlt]; omega)]
  congr 1
  rw [length_rollingStd, hlt]
  by_cases hcase : u.length < 100
  · exact getD_rollingApply_short 100 _ _ (u.length - 1) (by rw [hlt]; omega) (by omega)
  · rw [List.getD_eq_getElem?_getD, rollingStd,
      getElem?_rollingApply 100 _ (rollingStd 20 u) (u.length - 1) (by rw [hlt]; omega)]
    rw [if_neg (by omega)]
    have hwin : (windowAt 100 (u.length - 1) (rollingStd 20 u)).any PFloat.isNan = true := by
      have hx : (rollingStd 20 u)[u.length - 100]? = some PFloat.nan :=
        rolling20_nan_at u (u.length - 100) (by omega) (by omega)
      have h1' : u.length - 1 + 1 = u.length := by omega
      rw [windowAt, h1']
      rw [List.take_of_length_le (by rw [hlt])]
      have hd : ((rollingStd 20 u).drop (u.length - 100))[0]? = some PFloat.nan := by
        rw [List.getElem?_drop]
        simpa using hx
      rw [List.any_eq_true]
      obtain ⟨hd1, hd2⟩ := List.getElem?_eq_some.mp hd
      exact ⟨PFloat.nan, hd2 ▸ List.getElem_mem hd1, rfl⟩
    rw [if_pos hwin]
    rfl

/-- Counterexample to C8 as stated: a 30-bar series (shorter than the
100-bar lookback) makes the z-score NaN, not 0, because the Python guard
`std_vol != 0` is true for a NaN `std_vol` and the division then
propagates NaN. -/
theorem c8_counterexample :
    analyze (List.replicate 30 1) =
      Except.ok { z := PFloat.nan, er := PFloat.val 0, atr := PFloat.val 0
                , rsi := PFloat.nan, price := PFloat.val 1 } ∧
    (List.replicate 30 (1 : ℚ)).length < 100 ∧
    PFloat.nan ≠ PFloat.val 0 :=
  ⟨by with_unfolding_all rfl, by simp, by simp⟩

/-- C8 as amended: `z = (rol_std.iloc[-1] - mean_vol) / std_vol` is
guarded only by `std_vol != 0`, a test NaN passes, so for every series
short enough that the 100-bar lookback over the 20-bar rolling volatility
cannot fill (length at most 119) the returned z-score is NaN, never 0. -/
theorem c8_short_lookback_z_nan (closes : List ℚ) (s : Snapshot)
    (hlen : closes.length ≤ 119) (hok : analyze closes = Except.ok s) :
    s.z = PFloat.nan := by
  rcases Nat.eq_zero_or_pos closes.length with h0 | h0
  · rw [List.length_eq_zero.mp h0] at hok
    rw [show analyze [] = Except.error "IndexError" from by with_unfolding_all rfl] at hok
    exact absurd hok (by simp)
  · have hc : (closes.map PFloat.val).length = closes.length := by simp
    have h1 := ilocLast_ok
      (s := rollingMean 14 (sabs (sdiff (closes.map PFloat.val))))
      (by rw [length_rollingMean, length_sabs, length_sdiff, hc]; omega)
    have h2 := ilocLast_ok (s := rsiSeries (closes.map PFloat.val))
      (by rw [length_rsiSeries, hc]; omega)
    have hu : (dropna (pct_change (closes.map PFloat.val))).length ≤ 118 := by
      have hb := length_dropna_pct (closes.map PFloat.val) (by omega)
      rw [hc] at hb
      omega
    rcases Nat.eq_zero_or_pos (rolStd (closes.map PFloat.val)).length with hr | hr
    · have hnil3 : rollingMean 100 (rolStd (closes.map PFloat.val)) = [] :=
        List.length_eq_zero.mp (by rw [length_rollingMean]; exact hr)
      simp only [analyze, h1, h2, hnil3, ilocLast_nil, ebind_ok, ebind_err] at hok
      exact absurd hok (by simp)
    · have hrpos : 0 < (dropna (pct_change (closes.map PFloat.val))).length := by
        have heq : (rolStd (closes.map PFloat.val)).length =
            (dropna (pct_change (closes.map PFloat.val))).length := by
          rw [rolStd, length_rollingStd]
        omega
      have h4 : ilocLast (rollingStd 100 (rolStd (closes.map PFloat.val))) =
          Except.ok PFloat.nan := by
        rw [rolStd]
        exact stdvol_nan _ hrpos hu
      have h3 := ilocLast_ok (s := rollingMean 100 (rolStd (closes.map PFloat.val)))
        (by rw [length_rollingMean]; omega)
      have h5 := ilocLast_ok (s := rolStd (closes.map PFloat.val)) (by omega)
      have h6 := ilocLast_ok (s := closes.map PFloat.val) (by omega)
      by_cases h10 : closes.length < 10
      · have h7 : ilocNeg 10 (closes.map PFloat.val) = Except.error "IndexError" := by
          rw [ilocNeg, if_neg]
          rw [hc]
          omega
        simp only [analyze, h1, h2, h3, h4, h5, h6, h7, ebind_ok, ebind_err] at hok
        exact absurd hok (by simp)
      · have h7 : ilocNeg 10 (closes.map PFloat.val) = Except.ok
            ((closes.map PFloat.val).getD ((closes.map PFloat.val).length - 10) PFloat.nan) := by
          rw [ilocNeg, if_pos]
          rw [hc]
          omega
        have h8 := ilocLast_ok
          (s := rollingSum 10 (sabs (sdiff (closes.map PFloat.val))))
          (by rw [length_rollingSum, length_sabs, length_sdiff, hc]; omega)
        simp only [analyze, h1, h2, h3, h4, h5, h6, h7, h8, ebind_ok, epure] at hok
        simp only [show PFloat.ne0 PFloat.nan = true from rfl, if_true, pf_div_nan,
          Except.ok.injEq] at hok
        rw [← hok]

/-- Witness for C8 (amended) at a concrete 50-bar constant series. -/
theorem c8_short_lookback_z_nan_witness :
    (List.replicate 50 (2 : ℚ)).length ≤ 119 ∧
    analyze (List.replicate 50 2) =
      Except.ok { z := PFloat.nan, er := PFloat.val 0, atr := PFloat.val 0
                , rsi := PFloat.nan, price := PFloat.val 2 } ∧
    Snapshot.z { z := PFloat.nan, er := PFloat.val 0, atr := PFloat.val 0
               , rsi := PFloat.nan, price := PFloat.val 2 } = PFloat.nan :=
  ⟨by simp, by with_unfolding_all rfl,
    c8_short_lookback_z_nan (List.replicate 50 2) _ (by simp)
      (by with_unfolding_all rfl)⟩

/-! ## Claim C2 -/

/-- C2: in an ARMED cycle with `now - armedAt > 900`, the ghost order is
discarded and the controller returns to IDLE without evaluating the
breakout conditions: no trade call is made, whatever the snapshot says. -/
theorem c2_expiry_precedes_breakout (venueOk : Bool) (order : GhostOrder)
    (s : Snapshot) (now : ℚ) (h : now - order.created > 900) :
    strategyStep venueOk (some order) s now =
      { ghost_order := none, trade := none, venue_order := none, exec_ok := none } := by
  simp [strategyStep, h]

/-- Witness for C2, at the scenario of the spec: a ghost order armed at
time 0 observed at time 1000 with the price past `buy_lvl` and RSI
satisfying the buy filter expires with no trade executed. -/
theorem c2_expiry_precedes_breakout_witness :
    ((1000 : ℚ) - 0 > 900) ∧
    PFloat.ge (PFloat.val 150) (PFloat.val 100) = true ∧
    PFloat.gt (PFloat.val 60) (PFloat.val RSI_BUY_MIN) = true ∧
    strategyStep true
      (some { buy_lvl := PFloat.val 100, sell_lvl := PFloat.val 90
            , atr := PFloat.val 2, created := 0 })
      { z := PFloat.val (-3), er := PFloat.val 1, atr := PFloat.val 2
      , rsi := PFloat.val 60, price := PFloat.val 150 } 1000 =
      { ghost_order := none, trade := none, venue_order := none, exec_ok := none } :=
  ⟨by norm_num, by with_unfolding_all decide, by with_unfolding_all decide,
    c2_expiry_precedes_breakout true _ _ 1000 (by norm_num)⟩

/-! ## Claim C4 -/

/-- C4: the squeeze condition of line 162 is a pure conjunction: it is
true iff both `z < Z_TRIGGER` and `er > ER_FILTER` hold, and making
exactly one of the two true never triggers it. -/
theorem c4_squeeze_conjunction (z er : PFloat) :
    (squeezeCond z er = true ↔
      (PFloat.lt z (PFloat.val Z_TRIGGER) = true ∧
       PFloat.gt er (PFloat.val ER_FILTER) = true)) ∧
    (PFloat.lt z (PFloat.val Z_TRIGGER) = true →
      PFloat.gt er (PFloat.val ER_FILTER) = false → squeezeCond z er = false) ∧
    (PFloat.lt z (PFloat.val Z_TRIGGER) = false →
      PFloat.gt er (PFloat.val ER_FILTER) = true → squeezeCond z er = false) := by
  refine ⟨?_, ?_, ?_⟩ <;> simp [squeezeCond] <;> intro h1 h2 <;> simp [h1, h2]

/-- Witness for C4 at a concrete snapshot on both sides of the iff. -/
theorem c4_squeeze_conjunction_witness :
    squeezeCond (PFloat.val (-3)) (PFloat.val 1) = true :=
  ((c4_squeeze_conjunction (PFloat.val (-3)) (PFloat.val 1)).1).mpr
    ⟨by with_unfolding_all decide, by with_unfolding_all decide⟩

/-! ## Claim C5 -/

/-- Counterexample to C5 as stated: an ARMED cycle with
`price >= buyLevel` and `rsi <= RSI_BUY_MIN` (a buy-side fakeout pattern)
in which the ghost order is nevertheless not preserved, because the order
is also expired and the expiry check of line 179 runs first. -/
theorem c5_counterexample :
    PFloat.ge (PFloat.val 150) (PFloat.val 100) = true ∧
    PFloat.gt (PFloat.val 50) (PFloat.val RSI_BUY_MIN) = false ∧
    ((1000 : ℚ) - 0 > 900) ∧
    (strategyStep true
      (some { buy_lvl := PFloat.val 100, sell_lvl := PFloat.val 90
            , atr := PFloat.val 2, created := 0 })
      { z := PFloat.val (-3), er := PFloat.val 1, atr := PFloat.val 2
      , rsi := PFloat.val 50, price := PFloat.val 150 } 1000).ghost_order ≠
      some { buy_lvl := PFloat.val 100, sell_lvl := PFloat.val 90
           , atr := PFloat.val 2, created := 0 } :=
  ⟨by with_unfolding_all decide, by with_unfolding_all decide, by norm_num,
    by with_unfolding_all decide⟩

/-- C5 as amended: in an ARMED cycle that has not expired, a buy-side
breakout with weak momentum (`price >= buyLevel` and `rsi <= RSI_BUY_MIN`)
leaves the ghost order completely unchanged, executes no trade and makes
no state transition. -/
theorem c5_fakeout_preserves_state (venueOk : Bool) (order : GhostOrder)
    (s : Snapshot) (now : ℚ) (hexp : ¬(now - order.created > 900))
    (hbreak : PFloat.ge s.price order.buy_lvl = true)
    (hweak : PFloat.gt s.rsi (PFloat.val RSI_BUY_MIN) = false) :
    strategyStep venueOk (some order) s now =
      { ghost_order := some order, trade := none, venue_order := none, exec_ok := none } := by
  simp [strategyStep, hexp, hbreak, hweak]

/-- Witness for C5 (amended) at a concrete non-expired fakeout cycle. -/
theorem c5_fakeout_preserves_state_witness :
    strategyStep true
      (some { buy_lvl := PFloat.val 100, sell_lvl := PFloat.val 90
            , atr := PFloat.val 2, created := 0 })
      { z := PFloat.val (-3), er := PFloat.val 1, atr := PFloat.val 2
      , rsi := PFloat.val 50, price := PFloat.val 150 } 100 =
      { ghost_order := some { buy_lvl := PFloat.val 100, sell_lvl := PFloat.val 90
                            , atr := PFloat.val 2, created := 0 }
      , trade := none, venue_order := none, exec_ok := none } :=
  c5_fakeout_preserves_state true _ _ 100 (by norm_num)
    (by with_unfolding_all decide) (by with_unfolding_all decide)

/-! ## Claim C6 -/

/-- C6: an IDLE cycle in which the squeeze fires arms a ghost order with
`buyLevel = price + 0.5*atr`, `sellLevel = price - 0.5*atr`,
`atrAtArming = atr` and `armedAt = now`, with no trade executed. -/
theorem c6_arming_on_squeeze (venueOk : Bool) (s : Snapshot) (now : ℚ)
    (h : squeezeCond s.z s.er = true) :
    strategyStep venueOk none s now =
      { ghost_order := some
          { buy_lvl := PFloat.add s.price (PFloat.mul (PFloat.val 0.5) s.atr)
          , sell_lvl := PFloat.sub s.price (PFloat.mul (PFloat.val 0.5) s.atr)
          , atr := s.atr
          , created := now }
      , trade := none, venue_order := none, exec_ok := none } := by
  simp only [strategyStep, h, if_true]
  rw [pf_mul_comm s.atr (PFloat.val 0.5)]

/-- Witness for C6 at a concrete squeeze snapshot. -/
theorem c6_arming_on_squeeze_witness :
    strategyStep true none
      { z := PFloat.val (-3), er := PFloat.val 1, atr := PFloat.val 2
      , rsi := PFloat.val 50, price := PFloat.val 100 } 7 =
      { ghost_order := some
          { buy_lvl := PFloat.add (PFloat.val 100) (PFloat.mul (PFloat.val 0.5) (PFloat.val 2))
          , sell_lvl := PFloat.sub (PFloat.val 100) (PFloat.mul (PFloat.val 0.5) (PFloat.val 2))
          , atr := PFloat.val 2
          , created := 7 }
      , trade := none, venue_order := none, exec_ok := none } :=
  c6_arming_on_squeeze true _ 7 (by with_unfolding_all decide)

/-! ## Claim C7 -/

/-- C7: whenever the controller hands a trade to `execute_trade`, the
ghost order is cleared in that same cycle, for success and failure of the
venue interaction alike (the boolean result of `execute_trade` is not
consulted): there is no retry and no re-arming from the same squeeze. -/
theorem c7_ghost_cleared_on_execution (venueOk : Bool) (ghost : Option GhostOrder)
    (s : Snapshot) (now : ℚ) (d : Direction) (q : ℚ)
    (h : (strategyStep venueOk ghost s now).trade = some (d, q)) :
    (strategyStep venueOk ghost s now).ghost_order = none := by
  rcases ghost with _ | order
  · by_cases hsq : squeezeCond s.z s.er = true <;> simp [strategyStep, hsq] at h
  · by_cases h1 : now - order.created > 900
    · simp [strategyStep, h1]
    · by_cases h2 : PFloat.ge s.price order.buy_lvl = true
      · by_cases h3 : PFloat.gt s.rsi (PFloat.val RSI_BUY_MIN) = true
        · simp [strategyStep, h1, h2, h3]
        · simp [strategyStep, h1, h2, h3] at h
      · by_cases h4 : PFloat.le s.price order.sell_lvl = true
        · by_cases h5 : PFloat.lt s.rsi (PFloat.val RSI_SELL_MAX) = true
          · simp [strategyStep, h1, h2, h4, h5]
          · simp [strategyStep, h1, h2, h4, h5] at h
        · simp [strategyStep, h1, h2, h4] at h

/-- Witness for C7: a confirmed SELL breakout with the venue interaction
failing; the trade was handed over and the ghost order is still cleared. -/
theorem c7_ghost_cleared_on_execution_witness :
    (strategyStep false
      (some { buy_lvl := PFloat.val 100, sell_lvl := PFloat.val 90
            , atr := PFloat.val 2, created := 0 })
      { z := PFloat.nan, er := PFloat.val 0, atr := PFloat.val 2
      , rsi := PFloat.val 40, price := PFloat.val 85 } 100).trade =
        some (Direction.SELL, 30) ∧
    (strategyStep false
      (some { buy_lvl := PFloat.val 100, sell_lvl := PFloat.val 90
            , atr := PFloat.val 2, created := 0 })
      { z := PFloat.nan, er := PFloat.val 0, atr := PFloat.val 2
      , rsi := PFloat.val 40, price := PFloat.val 85 } 100).ghost_order = none :=
  ⟨by with_unfolding_all decide,
    c7_ghost_cleared_on_execution false _ _ 100 Direction.SELL 30
      (by with_unfolding_all decide)⟩

/-! ## Claim C10 -/

/-- C10: while ARMED the controller never creates a second ghost order
and never mutates the existing one: any ghost order present after the
cycle is the very order that was armed before it, and the outcome of an
ARMED cycle does not depend on the squeeze inputs `z` and `er` at all
(only on price, RSI, the order and the clock). The state carries at most
one ghost order per instrument by construction (`Option GhostOrder`). -/
theorem c10_armed_idempotent (venueOk : Bool) (order : GhostOrder)
    (s s2 : Snapshot) (now : ℚ) :
    (∀ o2 : GhostOrder,
      (strategyStep venueOk (some order) s now).ghost_order = some o2 → o2 = order) ∧
    (s2.price = s.price → s2.rsi = s.rsi →
      strategyStep venueOk (some order) s2 now = strategyStep venueOk (some order) s now) := by
  constructor
  · intro o2 h
    by_cases h1 : now - order.created > 900
    · simp [strategyStep, h1] at h
    · by_cases h2 : PFloat.ge s.price order.buy_lvl = true
      · by_cases h3 : PFloat.gt s.rsi (PFloat.val RSI_BUY_MIN) = true
        · simp [strategyStep, h1, h2, h3] at h
        · simp [strategyStep, h1, h2, h3] at h; exact h.symm
      · by_cases h4 : PFloat.le s.price order.sell_lvl = true
        · by_cases h5 : PFloat.lt s.rsi (PFloat.val RSI_SELL_MAX) = true
          · simp [strategyStep, h1, h2, h4, h5] at h
          · simp [strategyStep, h1, h2, h4, h5] at h; exact h.symm
        · simp [strategyStep, h1, h2, h4] at h; exact h.symm
  · intro hp hr
    simp only [strategyStep]
    rw [hp, hr]

/-- Witness for C10: an ARMED cycle in which the squeeze condition fires
again (`z = -5 < -2`, `er = 1 > 0.4`) leaves the ghost order bit-identical,
and replacing those squeeze inputs by non-firing ones changes nothing. -/
theorem c10_armed_idempotent_witness :
    squeezeCond (PFloat.val (-5)) (PFloat.val 1) = true ∧
    (strategyStep true
      (some { buy_lvl := PFloat.val 100, sell_lvl := PFloat.val 90
            , atr := PFloat.val 2, created := 0 })
      { z := PFloat.val (-5), er := PFloat.val 1, atr := PFloat.val 2
      , rsi := PFloat.val 50, price := PFloat.val 95 } 100).ghost_order =
      some { buy_lvl := PFloat.val 100, sell_lvl := PFloat.val 90
           , atr := PFloat.val 2, created := 0 } ∧
    strategyStep true
      (some { buy_lvl := PFloat.val 100, sell_lvl := PFloat.val 90
            , atr := PFloat.val 2, created := 0 })
      { z := PFloat.val 3, er := PFloat.val 0, atr := PFloat.val 2
      , rsi := PFloat.val 50, price := PFloat.val 95 } 100 =
    strategyStep true
      (some { buy_lvl := PFloat.val 100, sell_lvl := PFloat.val 90
            , atr := PFloat.val 2, created := 0 })
      { z := PFloat.val (-5), er := PFloat.val 1, atr := PFloat.val 2
      , rsi := PFloat.val 50, price := PFloat.val 95 } 100 :=
  ⟨by with_unfolding_all decide, by with_unfolding_all decide,
    (c10_armed_idempotent true
      { buy_lvl := PFloat.val 100, sell_lvl := PFloat.val 90
      , atr := PFloat.val 2, created := 0 }
      { z := PFloat.val (-5), er := PFloat.val 1, atr := PFloat.val 2
      , rsi := PFloat.val 50, price := PFloat.val 95 }
      { z := PFloat.val 3, er := PFloat.val 0, atr := PFloat.val 2
      , rsi := PFloat.val 50, price := PFloat.val 95 } 100).2 rfl rfl⟩

/-! ## Claim C1 -/

/-- Counterexample to C1 as stated: at a confirmed BUY breakout with
entry price 100 and `atrAtArming = 2`, the only exit parameter the code
emits is the fixed cash amount 30 handed to `execute_trade` (placed as a
`take_profit` limit of 30 currency units), which is neither the
spec-derived `takeProfit = entry + 9*atr = 118` nor the spec-derived
`stopLoss = entry - 3*atr = 94`; changing `atrAtArming` to 7 leaves the
emission unchanged, so the exit levels are not derived from the ATR
captured at arming. -/
theorem c1_counterexample :
    (strategyStep true
      (some { buy_lvl := PFloat.val 100, sell_lvl := PFloat.val 90
            , atr := PFloat.val 2, created := 0 })
      { z := PFloat.nan, er := PFloat.val 0, atr := PFloat.val 2
      , rsi := PFloat.val 60, price := PFloat.val 100 } 10).trade =
        some (Direction.BUY, 30) ∧
    (strategyStep true
      (some { buy_lvl := PFloat.val 100, sell_lvl := PFloat.val 90
            , atr := PFloat.val 2, created := 0 })
      { z := PFloat.nan, er := PFloat.val 0, atr := PFloat.val 2
      , rsi := PFloat.val 60, price := PFloat.val 100 } 10).venue_order =
        some { contract_type := "MULTUP", amount := 10, multiplier := 100
             , take_profit := 30 } ∧
    specExitLevels Direction.BUY 100 2 = (94, 118) ∧
    (30 : ℚ) ≠ 118 ∧ (30 : ℚ) ≠ 94 ∧
    (strategyStep true
      (some { buy_lvl := PFloat.val 100, sell_lvl := PFloat.val 90
            , atr := PFloat.val 7, created := 0 })
      { z := PFloat.nan, er := PFloat.val 0, atr := PFloat.val 7
      , rsi := PFloat.val 60, price := PFloat.val 100 } 10).trade =
        some (Direction.BUY, 30) := by
  refine ⟨by with_unfolding_all decide, by with_unfolding_all decide, ?_,
    by norm_num, by norm_num, by with_unfolding_all decide⟩
  simp [specExitLevels, SL_ATR_MULT, TP_ATR_MULT]
  norm_num

/-- C1 as amended: on every confirmed breakout the code emits a fixed
cash take-profit target `RISK_STAKE * (TP_ATR_MULT / SL_ATR_MULT) = 30`
currency units, independent of the entry price and of the ATR captured at
arming; no stop-loss or take-profit price level is computed (the venue
auto-sets the stop loss to the stake). -/
theorem c1_fixed_reward (venueOk : Bool) (ghost : Option GhostOrder)
    (s : Snapshot) (now : ℚ) (d : Direction) (q : ℚ)
    (h : (strategyStep venueOk ghost s now).trade = some (d, q)) :
    q = RISK_STAKE * (TP_ATR_MULT / SL_ATR_MULT) ∧ q = 30 := by
  have hq : q = RISK_STAKE * (TP_ATR_MULT / SL_ATR_MULT) := by
    rcases ghost with _ | order
    · by_cases hsq : squeezeCond s.z s.er = true <;> simp [strategyStep, hsq] at h
    · by_cases h1 : now - order.created > 900
      · simp [strategyStep, h1] at h
      · by_cases h2 : PFloat.ge s.price order.buy_lvl = true
        · by_cases h3 : PFloat.gt s.rsi (PFloat.val RSI_BUY_MIN) = true
          · simp [strategyStep, h1, h2, h3] at h
            exact h.2.symm
          · simp [strategyStep, h1, h2, h3] at h
        · by_cases h4 : PFloat.le s.price order.sell_lvl = true
          · by_cases h5 : PFloat.lt s.rsi (PFloat.val RSI_SELL_MAX) = true
            · simp [strategyStep, h1, h2, h4, h5] at h
              exact h.2.symm
            · simp [strategyStep, h1, h2, h4, h5] at h
          · simp [strategyStep, h1, h2, h4] at h
  refine ⟨hq, ?_⟩
  rw [hq]
  norm_num [RISK_STAKE, TP_ATR_MULT, SL_ATR_MULT]

/-- Witness for C1 (amended) at a concrete confirmed BUY breakout. -/
theorem c1_fixed_reward_witness :
    (strategyStep true
      (some { buy_lvl := PFloat.val 100, sell_lvl := PFloat.val 90
            , atr := PFloat.val 5, created := 0 })
      { z := PFloat.nan, er := PFloat.val 0, atr := PFloat.val 5
      , rsi := PFloat.val 70, price := PFloat.val 101 } 10).trade =
      some (Direction.BUY, 30) ∧ (30 : ℚ) = RISK_STAKE * (TP_ATR_MULT / SL_ATR_MULT) :=
  ⟨by with_unfolding_all decide,
    (c1_fixed_reward true
      (some { buy_lvl := PFloat.val 100, sell_lvl := PFloat.val 90
            , atr := PFloat.val 5, created := 0 })
      { z := PFloat.nan, er := PFloat.val 0, atr := PFloat.val 5
      , rsi := PFloat.val 70, price := PFloat.val 101 } 10 Direction.BUY 30
      (by with_unfolding_all decide)).1⟩

/-! ## Claim C9 -/

theorem pf_add_val (a b : ℚ) :
    PFloat.add (PFloat.val a) (PFloat.val b) = PFloat.val (a + b) := rfl

theorem pf_abs_sub_val (a b : ℚ) :
    PFloat.abs (PFloat.sub (PFloat.val a) (PFloat.val b)) = PFloat.val |a - b| := by
  simp [PFloat.sub, PFloat.add, PFloat.neg, PFloat.abs, sub_eq_add_neg]

theorem pf_div_val (a b : ℚ) (hb : b ≠ 0) :
    PFloat.div (PFloat.val a) (PFloat.val b) = PFloat.val (a / b) := by
  simp [PFloat.div, hb]

theorem pf_gt_val (a b : ℚ) :
    PFloat.gt (PFloat.val a) (PFloat.val b) = decide (b < a) := rfl

theorem getD_map_val (l : List ℚ) (j : Nat) (hj : j < l.length) :
    (l.map PFloat.val).getD j PFloat.nan = PFloat.val (l.getD j 0) := by
  rw [List.getD_eq_getElem?_getD, List.getD_eq_getElem?_getD, List.getElem?_map,
    List.getElem?_eq_getElem hj]
  rfl

theorem drop_range_eq (m k : Nat) :
    (List.range (m + k)).drop m = (List.range k).map (m + ·) := by
  rw [List.range_add]
  have := List.drop_left (List.range m) ((List.range k).map (m + ·))
  rwa [List.length_range] at this

theorem foldl_add_val (l : List ℚ) : ∀ a : ℚ,
    (l.map PFloat.val).foldl PFloat.add (PFloat.val a) = PFloat.val (a + l.sum) := by
  induction l with
  | nil => intro a; simp
  | cons b t ih =>
    intro a
    simp only [List.map_cons, List.foldl_cons, pf_add_val, ih, List.sum_cons]
    exact congrArg PFloat.val (by ring)

theorem winSum_map_val (l : List ℚ) :
    winSum (l.map PFloat.val) = PFloat.val l.sum := by
  rw [winSum, foldl_add_val]
  exact congrArg PFloat.val (by ring)

/-- The last 10-bar window of `close.diff().abs()` spans the ten most
recent one-bar changes, reaching back to `close.iloc[-11]`. -/
theorem window_path_eq (closes : List ℚ) (hn : 11 ≤ closes.length) :
    windowAt 10 (closes.length - 1) (sabs (sdiff (closes.map PFloat.val))) =
      ((List.range 10).map fun i =>
        |closes.getD (closes.length - 10 + i) 0 -
         closes.getD (closes.length - 10 + i - 1) 0|).map PFloat.val := by
  have hc : (closes.map PFloat.val).length = closes.length := by simp
  have hS : sabs (sdiff (closes.map PFloat.val)) =
      (List.range closes.length).map (fun j =>
        PFloat.abs (if j = 0 then PFloat.nan
          else PFloat.sub ((closes.map PFloat.val).getD j PFloat.nan)
            ((closes.map PFloat.val).getD (j - 1) PFloat.nan))) := by
    rw [sabs, sdiff, hc, List.map_map]
    rfl
  rw [windowAt]
  have h1' : closes.length - 1 + 1 = closes.length := by omega
  rw [hS, h1']
  rw [List.take_of_length_le (by simp)]
  rw [← List.map_drop]
  have hsplit : closes.length = (closes.length - 10) + 10 := by omega
  conv_lhs => rw [hsplit, Nat.add_sub_cancel]
  rw [drop_range_eq, List.map_map, List.map_map]
  refine List.map_congr_left ?_
  intro i hi
  have hi10 : i < 10 := List.mem_range.mp hi
  simp only [Function.comp_apply]
  rw [if_neg (by omega)]
  rw [getD_map_val _ _ (by omega), getD_map_val _ _ (by omega)]
  exact pf_abs_sub_val _ _

/-- The `path` of line 78, `close.diff().abs().rolling(10).sum().iloc[-1]`,
equals the sum of the ten most recent absolute one-bar changes. -/
theorem path_last_val (closes : List ℚ) (hn : 11 ≤ closes.length) :
    (rollingSum 10 (sabs (sdiff (closes.map PFloat.val)))).getD
      ((closes.map PFloat.val).length - 1) PFloat.nan =
    PFloat.val (((List.range 10).map fun i =>
      |closes.getD (closes.length - 10 + i) 0 -
       closes.getD (closes.length - 10 + i - 1) 0|).sum) := by
  have hc : (closes.map PFloat.val).length = closes.length := by simp
  have hlen : (closes.length - 1) < (sabs (sdiff (closes.map PFloat.val))).length := by
    rw [length_sabs, length_sdiff, hc]
    omega
  rw [hc, List.getD_eq_getElem?_getD, rollingSum,
    getElem?_rollingApply 10 _ _ (closes.length - 1) hlen]
  rw [if_neg (by omega)]
  rw [window_path_eq closes hn]
  have hany : ((((List.range 10).map fun i =>
      |closes.getD (closes.length - 10 + i) 0 -
       closes.getD (closes.length - 10 + i - 1) 0|).map PFloat.val).any
        PFloat.isNan) = false := by
    simp [List.any_map, PFloat.isNan, Function.comp]
  rw [hany]
  simp only [Bool.false_eq_true, if_false]
  rw [winSum_map_val]
  rfl

/-- Counterexample to C9 as stated: on a 12-bar series whose oldest
in-window change is large, the code returns `er = 1/12`, while the
efficiency ratio with numerator and denominator over the same trailing
ten bars is `5/6` (and `1`, under the alternative same-trailing-alignment
reading with both over nine one-bar changes): the code numerator
`|iloc[-1] - iloc[-10]|` spans one bar fewer than its denominator. -/
theorem c9_counterexample :
    analyze [1000, 100, 1, 2, 3, 4, 5, 6, 7, 8, 9, 10] =
      Except.ok { z := PFloat.nan, er := PFloat.val (1 / 12), atr := PFloat.nan
                , rsi := PFloat.nan, price := PFloat.val 10 } ∧
    erSpec [1000, 100, 1, 2, 3, 4, 5, 6, 7, 8, 9, 10] = 5 / 6 ∧
    (1 / 12 : ℚ) ≠ 5 / 6 ∧ (1 / 12 : ℚ) ≠ 1 :=
  ⟨by with_unfolding_all rfl, by with_unfolding_all decide, by norm_num, by norm_num⟩

/-- C9 as amended: the efficiency ratio the code computes has numerator
`|close.iloc[-1] - close.iloc[-10]|` (net displacement across the nine
most recent one-bar changes) but denominator equal to the sum of the TEN
most recent absolute one-bar changes (reaching back to `iloc[-11]`), with
0 returned unless that denominator is positive: the denominator spans one
bar more than the numerator. -/
theorem c9_er_denominator_misaligned (closes : List ℚ) (s : Snapshot)
    (hn : 11 ≤ closes.length) (hok : analyze closes = Except.ok s) :
    s.er = erAmended closes := by
  have hc : (closes.map PFloat.val).length = closes.length := by simp
  have h1 := ilocLast_ok
    (s := rollingMean 14 (sabs (sdiff (closes.map PFloat.val))))
    (by rw [length_rollingMean, length_sabs, length_sdiff, hc]; omega)
  have h2 := ilocLast_ok (s := rsiSeries (closes.map PFloat.val))
    (by rw [length_rsiSeries, hc]; omega)
  rcases Nat.eq_zero_or_pos (rolStd (closes.map PFloat.val)).length with hr | hr
  · have hnil3 : rollingMean 100 (rolStd (closes.map PFloat.val)) = [] :=
      List.length_eq_zero.mp (by rw [length_rollingMean]; exact hr)
    simp only [analyze, h1, h2, hnil3, ilocLast_nil, ebind_ok, ebind_err] at hok
    exact absurd hok (by simp)
  · have h3 := ilocLast_ok (s := rollingMean 100 (rolStd (closes.map PFloat.val)))
      (by rw [length_rollingMean]; omega)
    have h4 := ilocLast_ok (s := rollingStd 100 (rolStd (closes.map PFloat.val)))
      (by rw [length_rollingStd]; omega)
    have h5 := ilocLast_ok (s := rolStd (closes.map PFloat.val)) (by omega)
    have h6 : ilocLast (closes.map PFloat.val) =
        Except.ok (PFloat.val (closes.getD (closes.length - 1) 0)) := by
      rw [ilocLast_ok (by rw [hc]; omega), hc]
      congr 1
      exact getD_map_val closes (closes.length - 1) (by omega)
    have h7 : ilocNeg 10 (closes.map PFloat.val) =
        Except.ok (PFloat.val (closes.getD (closes.length - 10) 0)) := by
      rw [ilocNeg, if_pos (by rw [hc]; omega), hc]
      congr 1
      exact getD_map_val closes (closes.length - 10) (by omega)
    have h8 : ilocLast (rollingSum 10 (sabs (sdiff (closes.map PFloat.val)))) =
        Except.ok (PFloat.val (((List.range 10).map fun i =>
          |closes.getD (closes.length - 10 + i) 0 -
           closes.getD (closes.length - 10 + i - 1) 0|).sum)) := by
      rw [ilocLast_ok (by rw [length_rollingSum, length_sabs, length_sdiff, hc]; omega)]
      congr 1
      rw [length_rollingSum, length_sabs, length_sdiff]
      exact path_last_val closes hn
    simp only [analyze, h1, h2, h3, h4, h5, h6, h7, h8, ebind_ok, epure,
      Except.ok.injEq] at hok
    rw [← hok]
    dsimp only
    rw [pf_abs_sub_val]
    simp only [erAmended]
    rw [pf_gt_val]
    by_cases hP : 0 < ((List.range 10).map fun i =>
        |closes.getD (closes.length - 10 + i) 0 -
         closes.getD (closes.length - 10 + i - 1) 0|).sum
    · rw [if_pos (decide_eq_true hP), if_pos hP]
      exact pf_div_val _ _ hP.ne'
    · rw [if_neg (by simpa using hP), if_neg hP]

/-- Witness for C9 (amended) at a concrete 12-bar arithmetic series:
`er = |12 - 3| / (10 one-bar changes of 1) = 9/10`. -/
theorem c9_er_denominator_misaligned_witness :
    analyze [1, 2, 3, 4, 5, 6, 7, 8, 9, 10, 11, 12] =
      Except.ok { z := PFloat.nan, er := PFloat.val (9 / 10), atr := PFloat.nan
                , rsi := PFloat.nan, price := PFloat.val 12 } ∧
    Snapshot.er { z := PFloat.nan, er := PFloat.val (9 / 10), atr := PFloat.nan
                , rsi := PFloat.nan, price := PFloat.val 12 } =
      erAmended [1, 2, 3, 4, 5, 6, 7, 8, 9, 10, 11, 12] :=
  ⟨by with_unfolding_all rfl,
    c9_er_denominator_misaligned [1, 2, 3, 4, 5, 6, 7, 8, 9, 10, 11, 12] _
      (by norm_num) (by with_unfolding_all rfl)⟩

end SniperBot
